import Mathlib

/-!
Verification of the replica-side validation core of the safe-transfers
repository (`wallet_replica.rs`, `genesis.rs`).

The data model of the ambient `sn_data_types` crate is embedded
symbolically: public keys are naturals, a signature records the key it
was produced with and the exact bytes it signs, and `PublicKey::verify`
succeeds exactly when both match.  Canonical serialisation (`bincode`)
is a deterministic total function to `List Nat` and never fails.
-/

namespace SafeTransfers

/-- Byte strings produced by canonical (bincode) serialisation. -/
abbrev Bytes := List Nat

/-- Public keys, symbolically. -/
abbrev PublicKey := Nat

/-- A BLS signature in the symbolic model: it records the (aggregate)
public key it verifies under and the bytes it signs. -/
structure Signature where
  key : PublicKey
  msg : Bytes
  deriving DecidableEq, Repr

/-- `PublicKey::verify`: succeeds iff the signature was produced for this
key over exactly these bytes. -/
def pkVerify (pk : PublicKey) (sig : Signature) (bytes : Bytes) : Bool :=
  sig.key == pk && sig.msg == bytes

/-- `threshold_crypto::PublicKeySet`: exposes its aggregate public key and
its degree (threshold). -/
structure PublicKeySet where
  pk : PublicKey
  threshold : Nat
  deriving DecidableEq, Repr

/-- `PublicKeySet::public_key()`. -/
def PublicKeySet.publicKey (s : PublicKeySet) : PublicKey := s.pk

/-- `Money`: a non-negative amount in nano units. -/
abbrev Money := Nat

/-- `TransferId` / `DebitId`: the debit identifier `{actor, counter}`. -/
structure TransferId where
  actor : PublicKey
  counter : Nat
  deriving DecidableEq, Repr

/-- A debit: `{ id: {sender pubkey, counter}, amount }`. -/
structure Debit where
  id : TransferId
  amount : Money
  deriving DecidableEq, Repr

/-- `Debit::sender()`. -/
def Debit.sender (d : Debit) : PublicKey := d.id.actor

/-- `CreditId`: a deterministic digest; symbolically a natural number. -/
abbrev CreditId := Nat

/-- `Debit::credit_id()`: a deterministic (injective) function of the
debit, embedded via the pairing function.  The Rust version hashes the
serialised debit and can only fail on serialisation failure, which the
model excludes. -/
def Debit.creditId (d : Debit) : CreditId :=
  Nat.pair d.id.actor (Nat.pair d.id.counter d.amount)

/-- A credit: `{ id, amount, recipient, msg }`. -/
structure Credit where
  id : CreditId
  amount : Money
  recipient : PublicKey
  msg : String
  deriving DecidableEq, Repr

/-- A debit plus the actor's signature over the serialised debit. -/
structure SignedDebit where
  debit : Debit
  actor_signature : Signature
  deriving DecidableEq, Repr

/-- `SignedDebit::sender()`. -/
def SignedDebit.sender (sd : SignedDebit) : PublicKey := sd.debit.sender

/-- A credit plus the actor's signature over the serialised credit. -/
structure SignedCredit where
  credit : Credit
  actor_signature : Signature
  deriving DecidableEq, Repr

/-- `SignedCredit::id()`. -/
def SignedCredit.id (sc : SignedCredit) : CreditId := sc.credit.id

/-- Canonical serialisation of a `Debit`. -/
def serialiseDebit (d : Debit) : Bytes :=
  [0, d.id.actor, d.id.counter, d.amount]

/-- Canonical serialisation of a `Credit`. -/
def serialiseCredit (c : Credit) : Bytes :=
  [1, c.id, c.amount, c.recipient, c.msg.length] ++ c.msg.toList.map Char.toNat

/-- Canonical serialisation of a `Signature`. -/
def serialiseSignature (s : Signature) : Bytes :=
  s.key :: s.msg.length :: s.msg

/-- Canonical serialisation of a `SignedDebit`. -/
def serialiseSignedDebit (sd : SignedDebit) : Bytes :=
  2 :: serialiseDebit sd.debit ++ serialiseSignature sd.actor_signature

/-- Canonical serialisation of a `SignedCredit`. -/
def serialiseSignedCredit (sc : SignedCredit) : Bytes :=
  3 :: serialiseCredit sc.credit ++ serialiseSignature sc.actor_signature

/-- `TransferAgreementProof`: the quorum-signed debit/credit pair. -/
structure TransferAgreementProof where
  signed_debit : SignedDebit
  signed_credit : SignedCredit
  debit_sig : Signature
  credit_sig : Signature
  debiting_replicas_keys : PublicKeySet
  deriving DecidableEq, Repr

/-- `CreditAgreementProof`: the quorum-signed credit for propagation. -/
structure CreditAgreementProof where
  signed_credit : SignedCredit
  debiting_replicas_sig : Signature
  debiting_replicas_keys : PublicKeySet
  deriving DecidableEq, Repr

/-- `CreditAgreementProof::id()`. -/
def CreditAgreementProof.id (p : CreditAgreementProof) : CreditId :=
  p.signed_credit.id

/-- The `TransferRegistered` event payload. -/
structure TransferRegistered where
  transfer_proof : TransferAgreementProof
  deriving DecidableEq, Repr

/-- The `KnownGroupAdded` event payload. -/
structure KnownGroupAdded where
  group : PublicKeySet
  deriving DecidableEq, Repr

/-- The `TransferValidated` event payload (only the fields `apply`
reads, plus the credit half carried alongside in the source). -/
structure TransferValidated where
  signed_debit : SignedDebit
  signed_credit : SignedCredit
  deriving DecidableEq, Repr

/-- The `TransferPropagated` event payload. -/
structure TransferPropagated where
  credit_proof : CreditAgreementProof
  deriving DecidableEq, Repr

/-- `ReplicaEvent`: the tagged union of replica events. -/
inductive ReplicaEvent where
  | KnownGroupAdded (e : KnownGroupAdded)
  | TransferValidated (e : TransferValidated)
  | TransferRegistered (e : TransferRegistered)
  | TransferPropagated (e : TransferPropagated)
  deriving DecidableEq, Repr

/-- The error taxonomy of `sn_data_types::Error` as used by this core.
`Error::from(&str)` is embedded as `Unexpected`. -/
inductive Error where
  | InvalidSignature
  | InvalidOperation
  | NoSuchSender
  | InsufficientBalance
  | DataExists
  | CannotAggregate
  | Serialisation (msg : String)
  | NetworkOther (msg : String)
  | Unexpected (msg : String)
  deriving DecidableEq, Repr

/-- Modelled from the spec: the `Outcome` tri-state of §7 (its source is
not under src/): `success(payload)` is `.ok (some payload)`, `no_change`
is `.ok none`, and `rejected(e)` / internal errors are `.error e`. -/
abbrev Outcome (α : Type) := Except Error (Option α)

/-- `Outcome::success`. -/
def Outcome.success {α : Type} (a : α) : Outcome α := .ok (some a)

/-- `Outcome::no_change`. -/
def Outcome.noChange {α : Type} : Outcome α := .ok none

/-- `Outcome::rejected`. -/
def Outcome.rejected {α : Type} (e : Error) : Outcome α := .error e

/-- Modelled from the spec: the `Wallet` of §4.1 (its source file is not
under src/): owner key, current balance, set of applied credit ids, and
the next expected debit counter. -/
structure Wallet where
  id : PublicKey
  balance : Money
  creditIds : List CreditId
  nextDebit : Nat
  deriving DecidableEq, Repr

/-- Modelled from the spec: `Wallet::new` — a fresh wallet with zero
balance, no applied credits, next debit counter 0. -/
def Wallet.new (id : PublicKey) : Wallet :=
  { id := id, balance := 0, creditIds := [], nextDebit := 0 }

/-- Modelled from the spec: `Wallet::contains` — membership over
previously applied credit ids. -/
def Wallet.contains (w : Wallet) (cid : CreditId) : Bool :=
  w.creditIds.contains cid

/-- Modelled from the spec: `Wallet::apply_debit` — fails if the counter
is out of order or the amount exceeds the balance; otherwise decrements
the balance and advances the counter. -/
def Wallet.applyDebit (w : Wallet) (d : Debit) : Except Error Wallet :=
  if d.id.counter ≠ w.nextDebit then
    .error .InvalidOperation
  else if d.amount > w.balance then
    .error .InsufficientBalance
  else
    .ok { w with balance := w.balance - d.amount, nextDebit := w.nextDebit + 1 }

/-- Modelled from the spec: `Wallet::apply_credit` — fails if the credit
id is already present; otherwise adds the amount and records the id. -/
def Wallet.applyCredit (w : Wallet) (c : Credit) : Except Error Wallet :=
  if w.contains c.id then
    .error .InvalidOperation
  else
    .ok { w with balance := w.balance + c.amount, creditIds := c.id :: w.creditIds }

/-- `WalletReplica`: the validation state machine of `wallet_replica.rs`.
`other_groups` (a `HashSet` in the source) is a list; only membership and
existence of a verifying member are ever used, so order is irrelevant. -/
structure WalletReplica where
  id : PublicKey
  replica_id : PublicKey
  key_index : Nat
  peer_replicas : PublicKeySet
  other_groups : List PublicKeySet
  wallet : Wallet
  pending_debit : Option Nat
  deriving DecidableEq, Repr

namespace WalletReplica

/-- `WalletReplica::from_snapshot`. -/
def from_snapshot (id : PublicKey) (replica_id : PublicKey) (key_index : Nat)
    (peer_replicas : PublicKeySet) (other_groups : List PublicKeySet)
    (wallet : Wallet) (pending_debit : Option Nat) : WalletReplica :=
  { id := id, replica_id := replica_id, key_index := key_index,
    peer_replicas := peer_replicas, other_groups := other_groups,
    wallet := wallet, pending_debit := pending_debit }

/-- `WalletReplica::balance`. -/
def balance (r : WalletReplica) : Money := r.wallet.balance

/-- `WalletReplica::apply`: the only mutator, one case per event. -/
def apply (r : WalletReplica) (event : ReplicaEvent) : Except Error WalletReplica :=
  match event with
  | .KnownGroupAdded e =>
      .ok { r with other_groups :=
        if r.other_groups.contains e.group then r.other_groups
        else e.group :: r.other_groups }
  | .TransferValidated e =>
      .ok { r with pending_debit := some e.signed_debit.debit.id.counter }
  | .TransferRegistered e =>
      let debit := e.transfer_proof.signed_debit.debit
      match r.wallet.applyDebit { id := debit.id, amount := debit.amount } with
      | .ok w => .ok { r with wallet := w }
      | .error e => .error e
  | .TransferPropagated e =>
      match r.wallet.applyCredit e.credit_proof.signed_credit.credit with
      | .ok w => .ok { r with wallet := w }
      | .error e => .error e

/-- The replay loop of `from_history`: apply each event in order,
aborting on the first failure. -/
def replay (r : WalletReplica) : List ReplicaEvent → Except Error WalletReplica
  | [] => .ok r
  | e :: es =>
      match r.apply e with
      | .ok r2 => r2.replay es
      | .error err => .error err

/-- `WalletReplica::from_history`: a fresh snapshot replayed over the
event list. -/
def from_history (id : PublicKey) (replica_id : PublicKey) (key_index : Nat)
    (peer_replicas : PublicKeySet) (events : List ReplicaEvent) :
    Except Error WalletReplica :=
  (from_snapshot id replica_id key_index peer_replicas [] (Wallet.new id) none).replay
    events

/-- `WalletReplica::add_known_group`. -/
def add_known_group (r : WalletReplica) (group : PublicKeySet) :
    Outcome KnownGroupAdded :=
  if r.other_groups.contains group then
    .error .DataExists
  else
    Outcome.success { group := group }

/-- `WalletReplica::verify_actor_signature`: both actor signatures must
verify under the sender's key over the canonical bytes of the inner
debit / credit, and the credit id must equal `debit.credit_id()`. -/
def verify_actor_signature (r : WalletReplica) (signed_debit : SignedDebit)
    (signed_credit : SignedCredit) : Except Error Unit :=
  let debit := signed_debit.debit
  let credit := signed_credit.credit
  let debit_bytes := serialiseDebit debit
  let credit_bytes := serialiseCredit credit
  let valid_debit := pkVerify signed_debit.sender signed_debit.actor_signature debit_bytes
  let valid_credit := pkVerify signed_debit.sender signed_credit.actor_signature credit_bytes
  if valid_debit && valid_credit && (credit.id == debit.creditId) then
    .ok ()
  else
    .error .InvalidSignature

/-- `WalletReplica::validate`: the debit-validation if/else chain,
embedded branch for branch.  The balance check is an `else if` after the
`else if let Some(counter) = self.pending_debit` arm, exactly as in the
source: when `pending_debit` is `Some` and the counter matches, control
falls through to success without reaching the balance check. -/
def validate (r : WalletReplica) (signed_debit : SignedDebit)
    (signed_credit : SignedCredit) : Outcome Unit :=
  let debit := signed_debit.debit
  let credit := signed_credit.credit
  if (r.verify_actor_signature signed_debit signed_credit).isOk = false then
    Outcome.rejected .InvalidSignature
  else if debit.sender == credit.recipient then
    Outcome.rejected (.Unexpected "Sender and recipient are the same.")
  else if ¬ (credit.id == debit.creditId) then
    Outcome.rejected (.Unexpected "The credit does not correspond to the debit.")
  else if ¬ (credit.amount == debit.amount) then
    Outcome.rejected (.Unexpected "Amounts must be equal.")
  else if debit.amount == 0 then
    Outcome.rejected (.Unexpected "Transfer amount must be more than zero.")
  else if ¬ (r.wallet.id == debit.sender) then
    Outcome.rejected .NoSuchSender
  else if r.pending_debit.isNone && debit.id.counter != 0 then
    Outcome.rejected (.Unexpected "out of order msg, actor's counter should be 0")
  else
    match r.pending_debit with
    | some counter =>
        if debit.id.counter ≠ counter + 1 then
          Outcome.rejected (.Unexpected
            ("out of order msg, debit counter: " ++ toString debit.id.counter
              ++ ", current counter: " ++ toString counter))
        else
          Outcome.success ()
    | none =>
        if debit.amount > r.balance then
          Outcome.rejected .InsufficientBalance
        else
          Outcome.success ()

/-- `WalletReplica::verify_registered_proof`: credit/debit id
correspondence first, then the aggregate signatures under the own group
key, then under the caller-provided past key. -/
def verify_registered_proof (r : WalletReplica) (proof : TransferAgreementProof)
    (past_key : Except Error PublicKey) : Except Error Unit :=
  if proof.signed_credit.id ≠ proof.signed_debit.debit.creditId then
    .error (.NetworkOther "Credit does not correspond with the debit.")
  else
    let debit_bytes := serialiseSignedDebit proof.signed_debit
    let credit_bytes := serialiseSignedCredit proof.signed_credit
    let public_key := r.peer_replicas.publicKey
    let valid_debit := pkVerify public_key proof.debit_sig debit_bytes
    let valid_credit := pkVerify public_key proof.credit_sig credit_bytes
    if valid_debit && valid_credit then
      .ok ()
    else
      match past_key with
      | .error e => .error e
      | .ok public_key =>
          let valid_debit := pkVerify public_key proof.debit_sig debit_bytes
          let valid_credit := pkVerify public_key proof.credit_sig credit_bytes
          if valid_debit && valid_credit then
            .ok ()
          else
            .error .InvalidSignature

/-- `WalletReplica::register`: signature verification first (any failure
is reported as `InvalidSignature`), then the counter check. -/
def register (r : WalletReplica) (transfer_proof : TransferAgreementProof)
    (past_key : Except Error PublicKey) : Outcome TransferRegistered :=
  if (r.verify_registered_proof transfer_proof past_key).isOk = false then
    .error .InvalidSignature
  else
    let debit := transfer_proof.signed_debit.debit
    if r.wallet.nextDebit == debit.id.counter then
      Outcome.success { transfer_proof := transfer_proof }
    else
      Outcome.rejected .InvalidOperation

/-- `WalletReplica::verify_propagated_proof`: own group key, then the
past key, then any known other group. -/
def verify_propagated_proof (r : WalletReplica) (proof : CreditAgreementProof)
    (past_key : Except Error PublicKey) : Except Error Unit :=
  let credit_bytes := serialiseSignedCredit proof.signed_credit
  let our_key := r.peer_replicas.publicKey
  if pkVerify our_key proof.debiting_replicas_sig credit_bytes then
    .ok ()
  else
    match past_key with
    | .error e => .error e
    | .ok public_key =>
        if pkVerify public_key proof.debiting_replicas_sig credit_bytes then
          .ok ()
        else if r.other_groups.any
            (fun set => pkVerify set.publicKey proof.debiting_replicas_sig credit_bytes) then
          .ok ()
        else
          .error .InvalidSignature

/-- `WalletReplica::receive_propagated`: proof verification, then credit
idempotency on the credit id. -/
def receive_propagated (r : WalletReplica) (credit_proof : CreditAgreementProof)
    (past_key : Except Error PublicKey) : Outcome Unit :=
  match r.verify_propagated_proof credit_proof past_key with
  | .error e => .error e
  | .ok () =>
      if r.wallet.contains credit_proof.id then
        Outcome.noChange
      else
        Outcome.success ()

/-- `WalletReplica::genesis`: one-shot infusion — rejected unless the
balance is zero and no debit is pending, else delegates to
`receive_propagated`. -/
def genesis (r : WalletReplica) (credit_proof : CreditAgreementProof)
    (past_key : Except Error PublicKey) : Outcome Unit :=
  if r.balance ≠ 0 ∨ r.pending_debit.isSome then
    .error .InvalidOperation
  else
    r.receive_propagated credit_proof past_key

end WalletReplica

/-! Embedding of `genesis.rs` (the genesis ceremony helpers). -/

/-- A secret key share of a threshold key set, held at a share index. -/
structure SecretKeyShare where
  idx : Nat
  deriving DecidableEq, Repr

/-- `SecretKeyShare::sign`: a signature share by holder `idx` over the
given bytes. -/
structure SignatureShare where
  idx : Nat
  msg : Bytes
  deriving DecidableEq, Repr

/-- `SecretKeyShare::sign`. -/
def SecretKeyShare.sign (sk : SecretKeyShare) (bytes : Bytes) : SignatureShare :=
  { idx := sk.idx, msg := bytes }

/-- `threshold_crypto::SecretKeySet`: determined by its threshold `t`
(degree); it hands out one secret key share per index. -/
structure SecretKeySet where
  threshold : Nat
  deriving DecidableEq, Repr

/-- `SecretKeySet::secret_key_share(i)`. -/
def SecretKeySet.secretKeyShare (s : SecretKeySet) (i : Nat) : SecretKeyShare :=
  { idx := i }

/-- `SecretKeySet::public_keys()`: the matching public key set, with the
same threshold.  The aggregate public key is a symbolic value. -/
def SecretKeySet.publicKeys (s : SecretKeySet) : PublicKeySet :=
  { pk := Nat.pair 1000 s.threshold, threshold := s.threshold }

/-- The `BTreeMap<i32, SignatureShare>` share maps of `genesis.rs`:
an association list with unique keys; `insert` replaces an existing
binding. -/
abbrev ShareMap := List (Nat × SignatureShare)

/-- `BTreeMap::insert`. -/
def ShareMap.insert (m : ShareMap) (k : Nat) (v : SignatureShare) : ShareMap :=
  if m.any (fun p => p.1 == k) then
    m.map (fun p => if p.1 == k then (k, v) else p)
  else
    m ++ [(k, v)]

/-- `PublicKeySet::combine_signatures`: a key set of degree `t` needs at
least `t+1` shares with distinct indices; on success it yields the
aggregate signature over the common message. -/
def PublicKeySet.combineSignatures (s : PublicKeySet) (m : ShareMap) :
    Except Unit Signature :=
  match m with
  | [] => .error ()
  | (_, share) :: _ =>
      if s.threshold + 1 ≤ m.length then
        .ok { key := s.pk, msg := share.msg }
      else
        .error ()

/-- The share-collection loop of `get_multi_genesis`, exactly as in the
source: for `i in 0..threshold+1`, sign with share `i` and insert the
result at map index `0` (the literal index used by the code). -/
def multiGenesisShareLoop (secret_key_set : SecretKeySet) (serialised : Bytes) :
    ShareMap :=
  (List.range (secret_key_set.threshold + 1)).foldl
    (fun credit_sig_shares i =>
      let secret_key := secret_key_set.secretKeyShare i
      let credit_sig_share := secret_key.sign serialised
      credit_sig_shares.insert 0 credit_sig_share)
    []

/-- `get_multi_genesis`: builds the genesis credit, collects actor-side
shares, combines, then collects replica-side shares over the signed
credit and combines again. -/
def getMultiGenesis (balance : Nat) (id : PublicKey)
    (secret_key_set : SecretKeySet) : Except Error CreditAgreementProof :=
  let credit : Credit :=
    { id := 0, amount := balance, recipient := id, msg := "genesis" }
  let serialised_credit := serialiseCredit credit
  let credit_sig_shares := multiGenesisShareLoop secret_key_set serialised_credit
  let peer_replicas := secret_key_set.publicKeys
  match peer_replicas.combineSignatures credit_sig_shares with
  | .error _ => .error .CannotAggregate
  | .ok actor_signature =>
      let signed_credit : SignedCredit :=
        { credit := credit, actor_signature := actor_signature }
      let serialised_signed := serialiseSignedCredit signed_credit
      let credit_sig_shares2 := multiGenesisShareLoop secret_key_set serialised_signed
      match peer_replicas.combineSignatures credit_sig_shares2 with
      | .error _ => .error .CannotAggregate
      | .ok debiting_replicas_sig =>
          .ok { signed_credit := signed_credit,
                debiting_replicas_sig := debiting_replicas_sig,
                debiting_replicas_keys := peer_replicas }

/-! Decidable equality for outcomes, used to settle concrete runs. -/

instance {ε α : Type} [DecidableEq ε] [DecidableEq α] : DecidableEq (Except ε α) :=
  fun a b =>
    match a, b with
    | .ok a, .ok b =>
        if h : a = b then .isTrue (by rw [h])
        else .isFalse (fun c => h (Except.ok.inj c))
    | .error a, .error b =>
        if h : a = b then .isTrue (by rw [h])
        else .isFalse (fun c => h (Except.error.inj c))
    | .ok _, .error _ => .isFalse (fun c => Except.noConfusion c)
    | .error _, .ok _ => .isFalse (fun c => Except.noConfusion c)

/-! Concrete example data used by counterexamples and witnesses.
Sender key 1, recipient key 2, own replica group key 9. -/

/-- Example peer group key set (aggregate key 9, threshold 0). -/
def exSet : PublicKeySet := { pk := 9, threshold := 0 }

/-- Example wallet for owner 1 with balance 100 and no history. -/
def exWallet : Wallet := { id := 1, balance := 100, creditIds := [], nextDebit := 0 }

/-- Example replica for wallet 1 with no pending debit. -/
def exRep : WalletReplica :=
  WalletReplica.from_snapshot 1 5 0 exSet [] exWallet none

/-- A debit of 40 from sender 1 at counter 0. -/
def exDebit : Debit := { id := { actor := 1, counter := 0 }, amount := 40 }

/-- The matching credit of `exDebit` to recipient 2. -/
def exCredit : Credit :=
  { id := exDebit.creditId, amount := 40, recipient := 2, msg := "" }

/-- `exDebit` signed by the sender over its canonical bytes. -/
def exSD : SignedDebit :=
  { debit := exDebit, actor_signature := { key := 1, msg := serialiseDebit exDebit } }

/-- `exCredit` signed by the sender over its canonical bytes. -/
def exSC : SignedCredit :=
  { credit := exCredit, actor_signature := { key := 1, msg := serialiseCredit exCredit } }

/-- A credit whose id does not match `exDebit.creditId`, still properly
signed by the sender. -/
def exCreditMismatch : Credit :=
  { id := exDebit.creditId + 1, amount := 40, recipient := 2, msg := "" }

/-- `exCreditMismatch` signed by the sender over its canonical bytes. -/
def exSCMismatch : SignedCredit :=
  { credit := exCreditMismatch,
    actor_signature := { key := 1, msg := serialiseCredit exCreditMismatch } }

/-- A debit of 500 (more than the balance 100) at counter 1. -/
def c1Debit : Debit := { id := { actor := 1, counter := 1 }, amount := 500 }

/-- The matching credit of `c1Debit`. -/
def c1Credit : Credit :=
  { id := c1Debit.creditId, amount := 500, recipient := 2, msg := "" }

/-- `c1Debit` signed by the sender. -/
def c1SD : SignedDebit :=
  { debit := c1Debit, actor_signature := { key := 1, msg := serialiseDebit c1Debit } }

/-- The matching signed credit of `c1SD`. -/
def c1SC : SignedCredit :=
  { credit := c1Credit, actor_signature := { key := 1, msg := serialiseCredit c1Credit } }

/-- `exRep` after a validated debit at counter 0 (`pending_debit = some 0`). -/
def c1Rep : WalletReplica := { exRep with pending_debit := some 0 }

/-- A debit of 500 at counter 0 (for the `pending_debit = none` case). -/
def c1DebitN : Debit := { id := { actor := 1, counter := 0 }, amount := 500 }

/-- The matching credit of `c1DebitN`. -/
def c1CreditN : Credit :=
  { id := c1DebitN.creditId, amount := 500, recipient := 2, msg := "" }

/-- `c1DebitN` signed by the sender. -/
def c1SDN : SignedDebit :=
  { debit := c1DebitN, actor_signature := { key := 1, msg := serialiseDebit c1DebitN } }

/-- The matching signed credit of `c1SDN`. -/
def c1SCN : SignedCredit :=
  { credit := c1CreditN, actor_signature := { key := 1, msg := serialiseCredit c1CreditN } }

/-- C1: the claim requires `validate` to reject with `InsufficientBalance`
whenever `debit.amount > balance` and preconditions 1-7 hold, both for
`pending_debit = None` and for `pending_debit = Some`.  The code only
performs the balance check in the `None` arm: with `pending_debit =
some 0`, a correctly signed, matching debit of 500 at counter 1 against
balance 100 is accepted (`success`), while the same over-budget debit at
counter 0 with `pending_debit = none` is rejected with
`InsufficientBalance`.  The conjuncts exhibit that the signature
precondition holds and the amount exceeds the balance at the accepted
input. -/
theorem validate_balance_check_skipped_code_bug :
    c1Rep.verify_actor_signature c1SD c1SC = .ok () ∧
    c1Rep.balance < c1Debit.amount ∧
    c1Rep.validate c1SD c1SC = Outcome.success () ∧
    exRep.validate c1SDN c1SCN = Outcome.rejected .InsufficientBalance :=
  ⟨by decide, by decide, by decide, by decide⟩

/-- The genesis credit built by `get_multi_genesis` for balance 1000 and
recipient 7. -/
def c9Credit : Credit := { id := 0, amount := 1000, recipient := 7, msg := "genesis" }

/-- C9: the claim states that each share-collection loop of
`get_multi_genesis` assembles `threshold+1` shares, one per share index
`i`, into the map handed to `combine_signatures`.  The code inserts every
share at map index 0, so for threshold 1 the map holds a single entry
(with key 0, carrying the share of index 1, the last inserted), and the
combination fails: `get_multi_genesis` returns `CannotAggregate` instead
of assembling two shares. -/
theorem multi_genesis_share_map_code_bug :
    (multiGenesisShareLoop { threshold := 1 } (serialiseCredit c9Credit)).map Prod.fst
      = [0] ∧
    (multiGenesisShareLoop { threshold := 1 } (serialiseCredit c9Credit)).length = 1 ∧
    getMultiGenesis 1000 7 { threshold := 1 } = .error .CannotAggregate :=
  ⟨by decide, by decide, by decide⟩

/-- C3 counterexample: both actor signatures verify, sender 1 differs
from recipient 2, and the credit id differs from `debit.credit_id()`,
yet `validate` rejects with `InvalidSignature` — not with the
"credit does not correspond to the debit" rejection the claim names. -/
theorem validate_id_mismatch_counterexample :
    pkVerify exSD.sender exSD.actor_signature (serialiseDebit exSD.debit) = true ∧
    pkVerify exSD.sender exSCMismatch.actor_signature
      (serialiseCredit exSCMismatch.credit) = true ∧
    exSD.debit.sender ≠ exSCMismatch.credit.recipient ∧
    exSCMismatch.credit.id ≠ exSD.debit.creditId ∧
    exRep.validate exSD exSCMismatch ≠
      Outcome.rejected (.Unexpected "The credit does not correspond to the debit.") ∧
    exRep.validate exSD exSCMismatch = Outcome.rejected .InvalidSignature :=
  ⟨by decide, by decide, by decide, by decide, by decide, by decide⟩

/-- C3 (amended): whenever both actor signatures verify, the sender
differs from the recipient, and `credit.id ≠ debit.credit_id()`,
`validate` rejects with `InvalidSignature`: the id-correspondence test
sits inside `verify_actor_signature`, so its failure is reported as a
signature failure and the dedicated correspondence branch is never
reached. -/
theorem validate_id_mismatch_rejects_invalid_signature
    (r : WalletReplica) (sd : SignedDebit) (sc : SignedCredit)
    (hd : pkVerify sd.sender sd.actor_signature (serialiseDebit sd.debit) = true)
    (hc : pkVerify sd.sender sc.actor_signature (serialiseCredit sc.credit) = true)
    (hsr : sd.debit.sender ≠ sc.credit.recipient)
    (hid : sc.credit.id ≠ sd.debit.creditId) :
    r.validate sd sc = Outcome.rejected .InvalidSignature := by
  have hv : (r.verify_actor_signature sd sc).isOk = false := by
    unfold WalletReplica.verify_actor_signature
    simp [hid, Except.isOk, Except.toBool]
  unfold WalletReplica.validate
  simp [hv]

/-- Witness for the amended C3 theorem at the concrete mismatch input. -/
theorem validate_id_mismatch_rejects_invalid_signature_witness :
    exRep.validate exSD exSCMismatch = Outcome.rejected .InvalidSignature :=
  validate_id_mismatch_rejects_invalid_signature exRep exSD exSCMismatch
    (by decide) (by decide) (by decide) (by decide)

/-- C2: signatures are checked first.  If either actor signature fails
to verify over the canonical bytes of the inner debit / credit under the
sender's key, `validate` rejects with `InvalidSignature` whatever the
other fields hold; and whenever `verify_registered_proof` fails,
`register` returns `InvalidSignature` before any counter check. -/
theorem signature_checked_first :
    (∀ (r : WalletReplica) (sd : SignedDebit) (sc : SignedCredit),
      pkVerify sd.sender sd.actor_signature (serialiseDebit sd.debit) = false ∨
      pkVerify sd.sender sc.actor_signature (serialiseCredit sc.credit) = false →
      r.validate sd sc = Outcome.rejected .InvalidSignature) ∧
    (∀ (r : WalletReplica) (proof : TransferAgreementProof)
      (past_key : Except Error PublicKey),
      (r.verify_registered_proof proof past_key).isOk = false →
      r.register proof past_key = .error .InvalidSignature) := by
  constructor
  · intro r sd sc h
    have hv : (r.verify_actor_signature sd sc).isOk = false := by
      unfold WalletReplica.verify_actor_signature
      rcases h with h | h <;> simp [h, Except.isOk, Except.toBool]
    unfold WalletReplica.validate
    simp [hv]
  · intro r proof past_key h
    unfold WalletReplica.register
    simp [h]

/-- A signed debit whose actor signature was produced under key 3, not
the sender's key 1: it does not verify. -/
def c2SDBad : SignedDebit :=
  { debit := exDebit, actor_signature := { key := 3, msg := serialiseDebit exDebit } }

/-- A transfer agreement proof with matching ids whose aggregate
signatures were produced under key 4, so neither the own group key 9 nor
the past key verifies them. -/
def c2BadProof : TransferAgreementProof :=
  { signed_debit := exSD, signed_credit := exSC,
    debit_sig := { key := 4, msg := serialiseSignedDebit exSD },
    credit_sig := { key := 4, msg := serialiseSignedCredit exSC },
    debiting_replicas_keys := exSet }

/-- Witness for C2 at a forged actor signature and a forged proof. -/
theorem signature_checked_first_witness :
    exRep.validate c2SDBad exSC = Outcome.rejected .InvalidSignature ∧
    exRep.register c2BadProof (.ok 11) = .error .InvalidSignature :=
  ⟨signature_checked_first.1 exRep c2SDBad exSC (Or.inl (by decide)),
   signature_checked_first.2 exRep c2BadProof (.ok 11) (by decide)⟩

/-- C10: when `signed_credit.id` differs from `signed_debit.credit_id()`,
`register` returns the plain `InvalidSignature` error — the
id-correspondence check is the first step of `verify_registered_proof`
and `register` maps every verification failure to `InvalidSignature`,
regardless of the aggregate signatures. -/
theorem register_id_mismatch_invalid_signature
    (r : WalletReplica) (proof : TransferAgreementProof)
    (past_key : Except Error PublicKey)
    (h : proof.signed_credit.id ≠ proof.signed_debit.debit.creditId) :
    r.register proof past_key = .error .InvalidSignature := by
  have hv : (r.verify_registered_proof proof past_key).isOk = false := by
    unfold WalletReplica.verify_registered_proof
    simp [h, Except.isOk, Except.toBool]
  unfold WalletReplica.register
  simp [hv]

/-- A transfer agreement proof whose credit id does not match the debit,
while both aggregate signatures verify under the own group key 9. -/
def c10Proof : TransferAgreementProof :=
  { signed_debit := exSD, signed_credit := exSCMismatch,
    debit_sig := { key := 9, msg := serialiseSignedDebit exSD },
    credit_sig := { key := 9, msg := serialiseSignedCredit exSCMismatch },
    debiting_replicas_keys := exSet }

/-- Witness for C10: the aggregate signatures of `c10Proof` verify under
the group key, yet `register` answers `InvalidSignature`. -/
theorem register_id_mismatch_invalid_signature_witness :
    pkVerify exSet.publicKey c10Proof.debit_sig
      (serialiseSignedDebit c10Proof.signed_debit) = true ∧
    pkVerify exSet.publicKey c10Proof.credit_sig
      (serialiseSignedCredit c10Proof.signed_credit) = true ∧
    exRep.register c10Proof (.ok 11) = .error .InvalidSignature :=
  ⟨by decide, by decide,
   register_id_mismatch_invalid_signature exRep c10Proof (.ok 11) (by decide)⟩

/-- C4: once `verify_registered_proof` passes, `register` succeeds with a
`TransferRegistered` event carrying the proof exactly when
`wallet.next_debit()` equals the proof's debit counter, rejects with
`InvalidOperation` otherwise, and in particular rejects a counter of 1
when `next_debit` is 0. -/
theorem register_counter_discipline
    (r : WalletReplica) (proof : TransferAgreementProof)
    (past_key : Except Error PublicKey)
    (hv : r.verify_registered_proof proof past_key = .ok ()) :
    (r.register proof past_key = Outcome.success { transfer_proof := proof } ↔
      r.wallet.nextDebit = proof.signed_debit.debit.id.counter) ∧
    (r.wallet.nextDebit ≠ proof.signed_debit.debit.id.counter →
      r.register proof past_key = Outcome.rejected .InvalidOperation) ∧
    (r.wallet.nextDebit = 0 → proof.signed_debit.debit.id.counter = 1 →
      r.register proof past_key = Outcome.rejected .InvalidOperation) := by
  have hr : r.register proof past_key =
      (if r.wallet.nextDebit == proof.signed_debit.debit.id.counter then
        Outcome.success { transfer_proof := proof }
      else Outcome.rejected .InvalidOperation) := by
    unfold WalletReplica.register
    simp [hv, Except.isOk, Except.toBool]
  rw [hr]
  by_cases hc : r.wallet.nextDebit = proof.signed_debit.debit.id.counter
  · simp [hc, Outcome.success, Outcome.rejected]
    omega
  · simp [hc, Outcome.success, Outcome.rejected]

/-- A transfer agreement proof over the counter-1 debit `c1SD`, signed
by the own group key 9. -/
def c4Proof : TransferAgreementProof :=
  { signed_debit := c1SD, signed_credit := c1SC,
    debit_sig := { key := 9, msg := serialiseSignedDebit c1SD },
    credit_sig := { key := 9, msg := serialiseSignedCredit c1SC },
    debiting_replicas_keys := exSet }

/-- Witness for C4: with `next_debit = 0` and a verified proof whose
debit counter is 1, `register` rejects with `InvalidOperation`. -/
theorem register_counter_discipline_witness :
    (exRep.register c4Proof (.ok 11) = Outcome.success { transfer_proof := c4Proof } ↔
      exRep.wallet.nextDebit = c4Proof.signed_debit.debit.id.counter) ∧
    exRep.register c4Proof (.ok 11) = Outcome.rejected .InvalidOperation := by
  have h := register_counter_discipline exRep c4Proof (.ok 11) (by decide)
  exact ⟨h.1, h.2.2 (by decide) (by decide)⟩

/-- The right-hand side of the spec's replay law, written from the
spec's own words: `from_snapshot` with an empty `other_groups` set, a
fresh `Wallet` for `id` and no pending debit, followed by a monadic fold
of `apply` over the events (any failure aborts with that error). -/
def replaySpec (id : PublicKey) (replica_id : PublicKey) (key_index : Nat)
    (peer_replicas : PublicKeySet) (events : List ReplicaEvent) :
    Except Error WalletReplica :=
  events.foldlM WalletReplica.apply
    (WalletReplica.from_snapshot id replica_id key_index peer_replicas []
      (Wallet.new id) none)

/-- The replay loop of `from_history` is the monadic fold of `apply`. -/
theorem replay_eq_foldlM (r : WalletReplica) (es : List ReplicaEvent) :
    r.replay es = es.foldlM WalletReplica.apply r := by
  induction es generalizing r with
  | nil => rfl
  | cons e es ih =>
      unfold WalletReplica.replay
      cases h : r.apply e with
      | ok r2 =>
          simp only [List.foldlM_cons, h, ih]
          rfl
      | error err =>
          simp only [List.foldlM_cons, h]
          rfl

/-- C7: the replay law — `from_history` equals the replica built by
`from_snapshot` over an empty group set, a fresh wallet and no pending
debit, with each event applied in order; an `apply` failure yields that
error and no replica. -/
theorem from_history_replay_law
    (id : PublicKey) (replica_id : PublicKey) (key_index : Nat)
    (peer_replicas : PublicKeySet) (events : List ReplicaEvent) :
    WalletReplica.from_history id replica_id key_index peer_replicas events =
      replaySpec id replica_id key_index peer_replicas events :=
  replay_eq_foldlM _ events

/-- C5: `receive_propagated` is idempotent on the credit id.  With a
verifying proof it answers `no_change` when the wallet already contains
the credit id and `success` otherwise; and when it does not, applying
the resulting `TransferPropagated` event raises the balance by exactly
the credit amount and makes a second identical call answer
`no_change`. -/
theorem receive_propagated_idempotent
    (r : WalletReplica) (p : CreditAgreementProof)
    (past_key : Except Error PublicKey)
    (hv : r.verify_propagated_proof p past_key = .ok ()) :
    (r.wallet.contains p.id = true →
      r.receive_propagated p past_key = Outcome.noChange) ∧
    (r.wallet.contains p.id = false →
      r.receive_propagated p past_key = Outcome.success () ∧
      ∃ r2, r.apply (.TransferPropagated { credit_proof := p }) = .ok r2 ∧
        r2.receive_propagated p past_key = Outcome.noChange ∧
        r2.balance = r.balance + p.signed_credit.credit.amount) := by
  constructor
  · intro hc
    unfold WalletReplica.receive_propagated
    rw [hv]
    simp [hc]
  · intro hc
    have hc2 : r.wallet.contains p.signed_credit.credit.id = false := hc
    refine ⟨?_, ?_⟩
    · unfold WalletReplica.receive_propagated
      rw [hv]
      simp [hc]
    · refine ⟨{ r with wallet := { r.wallet with
          balance := r.wallet.balance + p.signed_credit.credit.amount,
          creditIds := p.signed_credit.credit.id :: r.wallet.creditIds } },
        ?_, ?_, ?_⟩
      · unfold WalletReplica.apply Wallet.applyCredit
        simp [hc2]
      · have hv2 : WalletReplica.verify_propagated_proof
            { r with wallet := { r.wallet with
                balance := r.wallet.balance + p.signed_credit.credit.amount,
                creditIds := p.signed_credit.credit.id :: r.wallet.creditIds } }
            p past_key = .ok () := hv
        unfold WalletReplica.receive_propagated
        rw [hv2]
        simp [Wallet.contains, CreditAgreementProof.id, SignedCredit.id]
      · rfl

/-- A credit agreement proof over `exSC`, signed by the own group key. -/
def c5Proof : CreditAgreementProof :=
  { signed_credit := exSC,
    debiting_replicas_sig := { key := 9, msg := serialiseSignedCredit exSC },
    debiting_replicas_keys := exSet }

/-- Witness for C5 on the fresh wallet: success, then `no_change`, and
the balance grows by the amount exactly once. -/
theorem receive_propagated_idempotent_witness :
    exRep.receive_propagated c5Proof (.ok 11) = Outcome.success () ∧
    ∃ r2, exRep.apply (.TransferPropagated { credit_proof := c5Proof }) = .ok r2 ∧
      r2.receive_propagated c5Proof (.ok 11) = Outcome.noChange ∧
      r2.balance = exRep.balance + c5Proof.signed_credit.credit.amount :=
  (receive_propagated_idempotent exRep c5Proof (.ok 11) (by decide)).2 (by decide)

/-- C6: `genesis` is one-shot.  It rejects with `InvalidOperation`
whenever the balance is non-zero or a debit is pending; otherwise it
equals `receive_propagated`; and after a successful genesis of a
positive amount whose `TransferPropagated` event has been applied, every
further `genesis` call rejects with `InvalidOperation`. -/
theorem genesis_one_shot
    (r : WalletReplica) (p : CreditAgreementProof)
    (past_key : Except Error PublicKey) :
    ((r.balance ≠ 0 ∨ r.pending_debit.isSome = true) →
      r.genesis p past_key = .error .InvalidOperation) ∧
    (r.balance = 0 → r.pending_debit = none →
      r.genesis p past_key = r.receive_propagated p past_key) ∧
    (0 < p.signed_credit.credit.amount →
      r.genesis p past_key = Outcome.success () →
      ∃ r2, r.apply (.TransferPropagated { credit_proof := p }) = .ok r2 ∧
        ∀ (p2 : CreditAgreementProof) (pk2 : Except Error PublicKey),
          r2.genesis p2 pk2 = .error .InvalidOperation) := by
  refine ⟨?_, ?_, ?_⟩
  · intro h
    unfold WalletReplica.genesis
    rw [if_pos h]
  · intro hb hp
    unfold WalletReplica.genesis
    rw [if_neg]
    simp [hb, hp]
  · intro hamt hsucc
    unfold WalletReplica.genesis at hsucc
    by_cases hcond : r.balance ≠ 0 ∨ r.pending_debit.isSome = true
    · rw [if_pos hcond] at hsucc
      exact absurd hsucc (by simp [Outcome.success])
    · rw [if_neg hcond] at hsucc
      push_neg at hcond
      obtain ⟨hb, _⟩ := hcond
      unfold WalletReplica.receive_propagated at hsucc
      cases hv : r.verify_propagated_proof p past_key with
      | error e =>
          rw [hv] at hsucc
          exact absurd hsucc (by simp [Outcome.success])
      | ok u =>
          rw [hv] at hsucc
          by_cases hc : r.wallet.contains p.id = true
          · simp [hc] at hsucc
            exact absurd hsucc (by simp [Outcome.noChange, Outcome.success])
          · have hc2 : r.wallet.contains p.signed_credit.credit.id = false := by
              simpa using hc
            refine ⟨{ r with wallet := { r.wallet with
                balance := r.wallet.balance + p.signed_credit.credit.amount,
                creditIds := p.signed_credit.credit.id :: r.wallet.creditIds } },
              ?_, ?_⟩
            · unfold WalletReplica.apply Wallet.applyCredit
              simp [hc2]
            · intro p2 pk2
              unfold WalletReplica.genesis
              rw [if_pos]
              left
              have hb2 : r.wallet.balance = 0 := hb
              show r.wallet.balance + p.signed_credit.credit.amount ≠ 0
              rw [hb2, Nat.zero_add]
              exact Nat.pos_iff_ne_zero.mp hamt

/-- The empty replica used for the genesis witness. -/
def c6Rep : WalletReplica :=
  WalletReplica.from_snapshot 1 5 0 exSet [] (Wallet.new 1) none

/-- Witness for C6: a first genesis on the empty replica succeeds, and
after applying its `TransferPropagated` event a second genesis rejects
with `InvalidOperation`. -/
theorem genesis_one_shot_witness :
    c6Rep.genesis c5Proof (.ok 11) = Outcome.success () ∧
    ∃ r2, c6Rep.apply (.TransferPropagated { credit_proof := c5Proof }) = .ok r2 ∧
      r2.genesis c5Proof (.ok 11) = .error .InvalidOperation := by
  obtain ⟨r2, h1, h2⟩ :=
    (genesis_one_shot c6Rep c5Proof (.ok 11)).2.2 (by decide) (by decide)
  exact ⟨by decide, r2, h1, h2 c5Proof (.ok 11)⟩

/-- C8: a propagated proof whose aggregate signature verifies under
neither the own group key nor the past key is accepted exactly when some
known other group's key verifies it, and rejected with
`InvalidSignature` when no known group's key does. -/
theorem receive_propagated_known_groups
    (r : WalletReplica) (p : CreditAgreementProof) (k : PublicKey)
    (hown : pkVerify r.peer_replicas.publicKey p.debiting_replicas_sig
      (serialiseSignedCredit p.signed_credit) = false)
    (hpast : pkVerify k p.debiting_replicas_sig
      (serialiseSignedCredit p.signed_credit) = false) :
    ((∃ g ∈ r.other_groups, pkVerify g.publicKey p.debiting_replicas_sig
        (serialiseSignedCredit p.signed_credit) = true) →
      r.receive_propagated p (.ok k) = Outcome.noChange ∨
      r.receive_propagated p (.ok k) = Outcome.success ()) ∧
    ((∀ g ∈ r.other_groups, pkVerify g.publicKey p.debiting_replicas_sig
        (serialiseSignedCredit p.signed_credit) = false) →
      r.receive_propagated p (.ok k) = .error .InvalidSignature) := by
  constructor
  · rintro ⟨g, hg, hgv⟩
    have hany : r.other_groups.any (fun set => pkVerify set.publicKey
        p.debiting_replicas_sig (serialiseSignedCredit p.signed_credit)) = true :=
      List.any_eq_true.mpr ⟨g, hg, hgv⟩
    have hv2 : r.verify_propagated_proof p (.ok k) = .ok () := by
      unfold WalletReplica.verify_propagated_proof
      simp [hown, hpast, hany]
    unfold WalletReplica.receive_propagated
    rw [hv2]
    by_cases hc : r.wallet.contains p.id = true
    · left
      simp [hc]
    · right
      simp [hc]
  · intro hall
    have hany : r.other_groups.any (fun set => pkVerify set.publicKey
        p.debiting_replicas_sig (serialiseSignedCredit p.signed_credit)) = false := by
      rw [List.any_eq_false]
      intro g hg
      simp [hall g hg]
    have hv2 : r.verify_propagated_proof p (.ok k) = .error .InvalidSignature := by
      unfold WalletReplica.verify_propagated_proof
      simp [hown, hpast, hany]
    unfold WalletReplica.receive_propagated
    rw [hv2]

/-- A foreign replica group with aggregate key 77. -/
def c8Group : PublicKeySet := { pk := 77, threshold := 0 }

/-- `exRep` after learning of the group with key 77. -/
def c8Rep : WalletReplica := { exRep with other_groups := [c8Group] }

/-- A propagated proof signed by the known other group 77. -/
def c8ProofA : CreditAgreementProof :=
  { signed_credit := exSC,
    debiting_replicas_sig := { key := 77, msg := serialiseSignedCredit exSC },
    debiting_replicas_keys := c8Group }

/-- A propagated proof signed by an unknown group key 55. -/
def c8ProofB : CreditAgreementProof :=
  { signed_credit := exSC,
    debiting_replicas_sig := { key := 55, msg := serialiseSignedCredit exSC },
    debiting_replicas_keys := { pk := 55, threshold := 0 } }

/-- Witness for C8: the proof signed by the known group 77 is accepted,
the proof signed by the unknown key 55 is rejected. -/
theorem receive_propagated_known_groups_witness :
    (c8Rep.receive_propagated c8ProofA (.ok 11) = Outcome.noChange ∨
     c8Rep.receive_propagated c8ProofA (.ok 11) = Outcome.success ()) ∧
    c8Rep.receive_propagated c8ProofB (.ok 11) = .error .InvalidSignature :=
  ⟨(receive_propagated_known_groups c8Rep c8ProofA 11 (by decide) (by decide)).1
      ⟨c8Group, by decide, by decide⟩,
   (receive_propagated_known_groups c8Rep c8ProofB 11 (by decide) (by decide)).2
      (by decide)⟩

end SafeTransfers
